import Mathlib

/-!
Shallow embedding of the repository's single source file, a debugger
pretty-printing extension (`src/prettyprint.py`).

The script defines a formatter object `ClassPrinter` whose `to_string` method
derives a native function name from the displayed value's type name
(`self.val.type.name[6:].replace(".", "_")`), asks the host debugger to
evaluate `"%s_show(%u)" % (className, self.val)` for its side effect, and
returns `"%u" % self.val`.  At module load the script registers a regexp-based
printer collection matching type names beginning with `class`.

Python strings are modelled as Lean `String`s, with the slicing and
single-pattern `replace` operations defined over the code-point list
(`String.toList`), matching Python's code-point semantics.  The host debugger's
expression evaluator is an explicit parameter `pe : String → Except GdbError
GdbValue`; the side effect of calling it is recorded by explicit state passing
(a trace of the expression strings handed to the evaluator).
-/

/-- A debugger-held type as exposed to the script: it carries a name
(`val.type.name` in the source). -/
structure GdbType where
  name : String
deriving DecidableEq

/-- A debugger-held value: its type, and its unsigned-integer interpretation,
which is what Python's `"%u" % val` formats. -/
structure GdbValue where
  type : GdbType
  uval : Nat
deriving DecidableEq

/-- An error raised by the host's expression evaluator.  The script never
inspects it, so it is opaque apart from equality. -/
structure GdbError where
  msg : String
deriving DecidableEq

/-- Python string slicing `s[n:]` over the code-point list.  Total: a string of
length at most `n` yields the empty string, never an error. -/
def pySlice (s : String) (n : Nat) : String :=
  String.mk (s.toList.drop n)

/-- Python `str.replace(pat, rep)` over code-point lists: replace the leftmost
non-overlapping occurrences of `pat` by `rep`, scanning left to right.  The
counter `skip` is the number of characters of the most recent match still to
be consumed without emitting (the scan restarts after a match, so occurrences
never overlap); the scan proper is the `skip = 0` case.  An empty pattern
leaves the list unchanged (the script only ever uses a single-character
pattern, where Python and this definition agree). -/
def pyReplaceGo (pat rep : List Char) : Nat → List Char → List Char
  | _, [] => []
  | skip+1, _ :: cs => pyReplaceGo pat rep skip cs
  | 0, c :: cs =>
    if pat ≠ [] ∧ List.isPrefixOf pat (c :: cs) then
      rep ++ pyReplaceGo pat rep (pat.length - 1) cs
    else
      c :: pyReplaceGo pat rep 0 cs

/-- Python `s.replace(pat, rep)` on strings. -/
def pyReplace (s pat rep : String) : String :=
  String.mk (pyReplaceGo pat.toList rep.toList 0 s.toList)

/-- Python `"%u" % val`: the value's unsigned-integer interpretation rendered
in decimal. -/
def pyFormatU (v : GdbValue) : String :=
  Nat.repr v.uval

/-- Line 25 of the source: `className = self.val.type.name[6:].replace(".", "_")`. -/
def deriveClassName (typeName : String) : String :=
  pyReplace (pySlice typeName 6) "." "_"

/-- The formatter object: its only attribute is the stored value `val`. -/
structure ClassPrinter where
  val : GdbValue
deriving DecidableEq

/-- The constructor `__init__(self, val)`: store the value. -/
def ClassPrinter.init (val : GdbValue) : ClassPrinter :=
  ⟨val⟩

/-- The expression string the method hands to the host evaluator:
`"%s_show(%u)" % (className, self.val)` with `className` from line 25. -/
def ClassPrinter.showExpr (self : ClassPrinter) : String :=
  deriveClassName self.val.type.name ++ "_show(" ++ pyFormatU self.val ++ ")"

/-- The `to_string` method.  `pe` is the host's `gdb.parse_and_eval`; `σ` is
the trace of expression strings handed to the evaluator so far (explicit state
for the evaluation side effect).  The method evaluates the constructed
expression, discards its result, and returns `"%u" % self.val` together with
the (unchanged) formatter object and the extended trace; an evaluator error
propagates unchanged. -/
def ClassPrinter.to_string (pe : String → Except GdbError GdbValue)
    (self : ClassPrinter) (σ : List String) :
    Except GdbError (String × ClassPrinter × List String) :=
  match pe self.showExpr with
  | Except.error e => Except.error e
  | Except.ok _ => Except.ok (pyFormatU self.val, self, σ ++ [self.showExpr])

/-- One entry of a regexp-based printer collection, as recorded by
`add_printer(name, regexp, constructor)`. -/
structure SubPrinter where
  name : String
  regexp : String
  make : GdbValue → ClassPrinter

/-- The host's regexp-collection pretty printer, as the script populates it: a
collection name and a list of subprinter entries. -/
structure RegexpCollectionPrettyPrinter where
  name : String
  subprinters : List SubPrinter

/-- The collection constructor `RegexpCollectionPrettyPrinter("my_library")`. -/
def RegexpCollectionPrettyPrinter.new (name : String) : RegexpCollectionPrettyPrinter :=
  ⟨name, []⟩

/-- The host's `add_printer(name, regexp, constructor)`: append an entry. -/
def RegexpCollectionPrettyPrinter.add_printer (pp : RegexpCollectionPrettyPrinter)
    (name regexp : String) (make : GdbValue → ClassPrinter) :
    RegexpCollectionPrettyPrinter :=
  ⟨pp.name, pp.subprinters ++ [⟨name, regexp, make⟩]⟩

/-- Lines 30-33 of the source: build the collection and add the single entry
`("class", "^class", ClassPrinter)`. -/
def build_pretty_printer : RegexpCollectionPrettyPrinter :=
  (RegexpCollectionPrettyPrinter.new "my_library").add_printer
    "class" "^class" ClassPrinter.init

/-- Modelled from the spec: the host's regular-expression search used by its
pretty-printer registry (the host's `RegexpCollectionPrettyPrinter` matching
machinery is host code, not part of this repository).  It is restricted to the
pattern forms the module registers: a pattern beginning with the anchor `^`
followed by a literal matches exactly the strings carrying that literal at
position 0, and a plain literal pattern matches the strings containing it at
any position. -/
def regexpSearch (pat s : String) : Bool :=
  if pat.toList.head? = some '^' then
    List.isPrefixOf (pat.toList.drop 1) s.toList
  else
    (List.range (s.toList.length + 1)).any
      (fun i => List.isPrefixOf pat.toList (s.toList.drop i))

/-- Whether the registry associates the formatter with a given type name: some
entry's regexp matches it. -/
def matchesType (pp : RegexpCollectionPrettyPrinter) (typeName : String) : Bool :=
  pp.subprinters.any (fun e => regexpSearch e.regexp typeName)

/-- The binary object a registration is scoped to (`gdb.current_objfile()`);
opaque apart from identity. -/
structure Objfile where
  id : Nat
deriving DecidableEq

/-- A top-level side effect the module could perform at load time. -/
inductive LoadAction where
  | registerPrettyPrinter (objfile : Objfile) (pp : RegexpCollectionPrettyPrinter)
  | parseAndEval (expr : String)

/-- Lines 36-37 of the source, the module's only top-level statement with an
effect: `gdb.printing.register_pretty_printer(gdb.current_objfile(),
build_pretty_printer())`.  The result of loading the module is the list of
side effects it performs, in order. -/
def moduleLoad (current_objfile : Objfile) : List LoadAction :=
  [LoadAction.registerPrettyPrinter current_objfile build_pretty_printer]

/-! Helper lemmas. -/

/-- Replacement with the single-character pattern `.` and replacement `_` is
the character-wise substitution. -/
theorem pyReplaceGo_dot (l : List Char) :
    pyReplaceGo ['.'] ['_'] 0 l = l.map (fun c => if c = '.' then '_' else c) := by
  induction l with
  | nil => rfl
  | cons c cs ih =>
    by_cases h : c = '.'
    · subst h
      simp [pyReplaceGo, List.isPrefixOf, ih]
    · simp [pyReplaceGo, List.isPrefixOf, ih, beq_iff_eq, h, Ne.symm h]

/-- The derivation of line 25 written character-wise: drop the first six code
points and substitute an underscore for every period. -/
theorem deriveClassName_eq_map (t : String) :
    deriveClassName t =
      String.mk ((t.toList.drop 6).map (fun c => if c = '.' then '_' else c)) := by
  unfold deriveClassName pyReplace pySlice
  exact congrArg String.mk (pyReplaceGo_dot _)

/-- Shape of a successful `to_string` run: the summary is the decimal of the
unsigned interpretation, the formatter object is returned unchanged, and the
trace grows by exactly the single constructed expression. -/
theorem to_string_ok_shape (pe : String → Except GdbError GdbValue)
    (self : ClassPrinter) (σ : List String) (s : String) (q : ClassPrinter)
    (τ : List String)
    (h : ClassPrinter.to_string pe self σ = Except.ok (s, q, τ)) :
    s = pyFormatU self.val ∧ q = self ∧ τ = σ ++ [self.showExpr] := by
  unfold ClassPrinter.to_string at h
  cases hpe : pe self.showExpr with
  | error e =>
    rw [hpe] at h
    exact Except.noConfusion h
  | ok w =>
    rw [hpe] at h
    simp only [Except.ok.injEq, Prod.mk.injEq] at h
    exact ⟨h.1.symm, h.2.1.symm, h.2.2.symm⟩

/-- Boolean list-prefix testing, characterised through `take`. -/
theorem isPrefixOf_eq_take (l₁ l₂ : List Char) :
    List.isPrefixOf l₁ l₂ = true ↔ l₂.take l₁.length = l₁ := by
  induction l₁ generalizing l₂ with
  | nil => simp [List.isPrefixOf]
  | cons a as ih =>
    cases l₂ with
    | nil => simp [List.isPrefixOf]
    | cons b bs =>
      simp only [List.isPrefixOf, Bool.and_eq_true, beq_iff_eq, ih,
        List.length_cons, List.take_succ_cons, List.cons.injEq]
      constructor
      · rintro ⟨h1, h2⟩; exact ⟨h1.symm, h2⟩
      · rintro ⟨h1, h2⟩; exact ⟨h1.symm, h2⟩

/-! Concrete sample data for the witnesses. -/

/-- A sample debugger value whose type name carries the 6-character prefix. -/
def sampleVal : GdbValue :=
  ⟨⟨"class Foo.Bar"⟩, 5⟩

/-- The formatter constructed on the sample value. -/
def samplePrinter : ClassPrinter :=
  ClassPrinter.init sampleVal

/-- A sample value with a type name of length at most 6. -/
def shortVal : GdbValue :=
  ⟨⟨"class"⟩, 7⟩

/-- A sample value used for the determinism claim. -/
def valA : GdbValue :=
  ⟨⟨"class A"⟩, 3⟩

/-- The formatter constructed on `valA`. -/
def printerA : ClassPrinter :=
  ClassPrinter.init valA

/-- A sample evaluator error. -/
def sampleErr : GdbError :=
  ⟨"no such function"⟩

/-! Claims. -/

/-- Claim C1: for every type name string, the derived candidate identifier
equals the string with its first 6 characters removed and every literal period
replaced by an underscore — with no validation, on every input; in particular
a 6-character prefix followed by the remainder "Foo.Bar" derives "Foo_Bar". -/
theorem c1_derived_identifier :
    (∀ t : String,
        deriveClassName t =
          String.mk ((t.toList.drop 6).map (fun c => if c = '.' then '_' else c))) ∧
    (∀ p : List Char, p.length = 6 →
        deriveClassName (String.mk (p ++ "Foo.Bar".toList)) = "Foo_Bar") := by
  refine ⟨deriveClassName_eq_map, ?_⟩
  intro p hp
  rw [deriveClassName_eq_map]
  rw [show (String.mk (p ++ "Foo.Bar".toList)).toList = p ++ "Foo.Bar".toList from rfl]
  rw [← hp, List.drop_left]
  decide

/-- Witness for C1 at the concrete 6-character prefix "class ". -/
theorem c1_witness :
    ("class ".toList.length = 6) ∧
    deriveClassName (String.mk ("class ".toList ++ "Foo.Bar".toList)) = "Foo_Bar" :=
  ⟨by decide, c1_derived_identifier.2 "class ".toList (by decide)⟩

/-- Claim C2: `to_string` hands the host evaluator exactly the expression that
invokes `<derived identifier>_show` on the value's identifier, and the
evaluation's return value is discarded: the summary returned does not mention
or depend on it. -/
theorem c2_eval_show_and_discard (self : ClassPrinter)
    (pe : String → Except GdbError GdbValue) (σ : List String) (v : GdbValue)
    (h : pe self.showExpr = Except.ok v) :
    self.showExpr =
        deriveClassName self.val.type.name ++ "_show(" ++ pyFormatU self.val ++ ")" ∧
    ClassPrinter.to_string pe self σ =
      Except.ok (pyFormatU self.val, self, σ ++ [self.showExpr]) := by
  refine ⟨rfl, ?_⟩
  unfold ClassPrinter.to_string
  rw [h]

/-- Witness for C2 on the sample value, under an evaluator that succeeds. -/
theorem c2_witness :
    samplePrinter.showExpr =
        deriveClassName samplePrinter.val.type.name ++ "_show(" ++
          pyFormatU samplePrinter.val ++ ")" ∧
    ClassPrinter.to_string (fun _ => Except.ok sampleVal) samplePrinter [] =
      Except.ok (pyFormatU samplePrinter.val, samplePrinter,
        [] ++ [samplePrinter.showExpr]) :=
  c2_eval_show_and_discard samplePrinter (fun _ => Except.ok sampleVal) [] sampleVal rfl

/-- Claim C3: whenever `to_string` returns a summary string, that string is
exactly the value's unsigned-integer interpretation in decimal, with no other
text. -/
theorem c3_summary_is_unsigned_decimal (self : ClassPrinter)
    (pe : String → Except GdbError GdbValue) (σ : List String)
    (s : String) (q : ClassPrinter) (τ : List String)
    (h : ClassPrinter.to_string pe self σ = Except.ok (s, q, τ)) :
    s = Nat.repr self.val.uval :=
  (to_string_ok_shape pe self σ s q τ h).1

/-- Witness for C3: on the sample value (unsigned interpretation 5) the
returned summary is the decimal string "5". -/
theorem c3_witness : ("5" : String) = Nat.repr samplePrinter.val.uval :=
  c3_summary_is_unsigned_decimal samplePrinter (fun _ => Except.ok sampleVal) []
    "5" samplePrinter [samplePrinter.showExpr] rfl

/-- Claim C4: the registry built at load time matches a type name exactly when
it begins with the literal "class", and module load hands that registry to the
host's registration mechanism scoped to the currently loading objfile. -/
theorem c4_registry_matches_class_types :
    (∀ t : String,
        matchesType build_pretty_printer t = true ↔
          t.toList.take 5 = "class".toList) ∧
    (∀ obj : Objfile,
        moduleLoad obj = [LoadAction.registerPrettyPrinter obj build_pretty_printer]) := by
  constructor
  · intro t
    rw [show matchesType build_pretty_printer t =
          (List.isPrefixOf "class".toList t.toList || false) from rfl]
    rw [Bool.or_false, isPrefixOf_eq_take]
    exact Iff.rfl
  · intro obj
    rfl

/-- Claim C5: `to_string` catches nothing: an error raised by the host's
expression evaluation propagates out unchanged, and no summary is returned. -/
theorem c5_error_propagates (self : ClassPrinter)
    (pe : String → Except GdbError GdbValue) (σ : List String) (e : GdbError)
    (h : pe self.showExpr = Except.error e) :
    ClassPrinter.to_string pe self σ = Except.error e := by
  unfold ClassPrinter.to_string
  rw [h]

/-- Witness for C5: under an evaluator that fails, the sample invocation
propagates the very error. -/
theorem c5_witness :
    ClassPrinter.to_string (fun _ => Except.error sampleErr) samplePrinter [] =
      Except.error sampleErr :=
  c5_error_propagates samplePrinter (fun _ => Except.error sampleErr) [] sampleErr rfl

/-- Claim C6: when the nested evaluation succeeds, `to_string` terminates with
a string, having performed exactly one nested call to the host evaluator. -/
theorem c6_one_call_terminates (self : ClassPrinter)
    (pe : String → Except GdbError GdbValue) (σ : List String) (v : GdbValue)
    (h : pe self.showExpr = Except.ok v) :
    ∃ s : String, ∃ calls : List String, calls.length = 1 ∧
      ClassPrinter.to_string pe self σ = Except.ok (s, self, σ ++ calls) := by
  refine ⟨pyFormatU self.val, [self.showExpr], rfl, ?_⟩
  unfold ClassPrinter.to_string
  rw [h]

/-- Witness for C6 on the sample value. -/
theorem c6_witness :
    ∃ s : String, ∃ calls : List String, calls.length = 1 ∧
      ClassPrinter.to_string (fun _ => Except.ok sampleVal) samplePrinter [] =
        Except.ok (s, samplePrinter, [] ++ calls) :=
  c6_one_call_terminates samplePrinter (fun _ => Except.ok sampleVal) [] sampleVal rfl

/-- Claim C7: loading the module performs exactly one registration call and no
other top-level side effect. -/
theorem c7_load_registers_exactly_once (obj : Objfile) :
    (moduleLoad obj).length = 1 ∧
    moduleLoad obj = [LoadAction.registerPrettyPrinter obj build_pretty_printer] :=
  ⟨rfl, rfl⟩

/-- Claim C8: the strip of the first six characters is position-based and
total: a type name of length at most 6 derives the empty identifier with no
error, so the constructed expression begins with the bare suffix "_show". -/
theorem c8_short_name_gives_empty_identifier (v : GdbValue)
    (h : v.type.name.toList.length ≤ 6) :
    deriveClassName v.type.name = "" ∧
    (ClassPrinter.init v).showExpr = "_show(" ++ pyFormatU v ++ ")" := by
  have h1 : v.type.name.toList.drop 6 = [] := List.drop_eq_nil_of_le h
  have h2 : deriveClassName v.type.name = "" := by
    rw [deriveClassName_eq_map, h1]
    rfl
  refine ⟨h2, ?_⟩
  show deriveClassName v.type.name ++ "_show(" ++ pyFormatU v ++ ")" = _
  rw [h2]
  rfl

/-- Witness for C8 at the 5-character type name "class". -/
theorem c8_witness :
    deriveClassName shortVal.type.name = "" ∧
    (ClassPrinter.init shortVal).showExpr = "_show(" ++ pyFormatU shortVal ++ ")" :=
  c8_short_name_gives_empty_identifier shortVal (by decide)

/-- Claim C9: `to_string` does not mutate the formatter: after a successful
run the returned object is the one the constructor built, still holding the
very value the constructor stored. -/
theorem c9_no_mutation (v : GdbValue) (pe : String → Except GdbError GdbValue)
    (σ : List String) (s : String) (q : ClassPrinter) (τ : List String)
    (h : ClassPrinter.to_string pe (ClassPrinter.init v) σ = Except.ok (s, q, τ)) :
    q = ClassPrinter.init v ∧ q.val = v := by
  have hq := (to_string_ok_shape pe (ClassPrinter.init v) σ s q τ h).2.1
  subst hq
  exact ⟨rfl, rfl⟩

/-- Witness for C9 on the sample value. -/
theorem c9_witness :
    samplePrinter = ClassPrinter.init sampleVal ∧ samplePrinter.val = sampleVal :=
  c9_no_mutation sampleVal (fun _ => Except.ok sampleVal) [] (pyFormatU sampleVal)
    samplePrinter ([] ++ [samplePrinter.showExpr]) rfl

/-- Claim C10: `to_string` is deterministic and independent of the evaluation
result: two invocations on values agreeing in type name and unsigned
interpretation construct the same expression string, and whatever the host
evaluator returns, successful runs return the same summary while each trace
grows by exactly that expression. -/
theorem c10_deterministic_and_independent (p₁ p₂ : ClassPrinter)
    (pe₁ pe₂ : String → Except GdbError GdbValue) (σ₁ σ₂ : List String)
    (hn : p₁.val.type.name = p₂.val.type.name)
    (hu : p₁.val.uval = p₂.val.uval) :
    p₁.showExpr = p₂.showExpr ∧
    ∀ (s₁ s₂ : String) (q₁ q₂ : ClassPrinter) (τ₁ τ₂ : List String),
      ClassPrinter.to_string pe₁ p₁ σ₁ = Except.ok (s₁, q₁, τ₁) →
      ClassPrinter.to_string pe₂ p₂ σ₂ = Except.ok (s₂, q₂, τ₂) →
      s₁ = s₂ ∧ τ₁ = σ₁ ++ [p₁.showExpr] ∧ τ₂ = σ₂ ++ [p₂.showExpr] := by
  have hexpr : p₁.showExpr = p₂.showExpr := by
    unfold ClassPrinter.showExpr pyFormatU
    rw [hn, hu]
  refine ⟨hexpr, ?_⟩
  intro s₁ s₂ q₁ q₂ τ₁ τ₂ h₁ h₂
  obtain ⟨hs₁, -, ht₁⟩ := to_string_ok_shape pe₁ p₁ σ₁ s₁ q₁ τ₁ h₁
  obtain ⟨hs₂, -, ht₂⟩ := to_string_ok_shape pe₂ p₂ σ₂ s₂ q₂ τ₂ h₂
  refine ⟨?_, ht₁, ht₂⟩
  rw [hs₁, hs₂]
  unfold pyFormatU
  rw [hu]

/-- Witness for C10: two invocations on `valA` under evaluators returning
different results yield equal expressions, equal summaries, and the expected
traces. -/
theorem c10_witness :
    printerA.showExpr = printerA.showExpr ∧
      (("3" : String) = "3" ∧
        ["A_show(3)"] = [] ++ [printerA.showExpr] ∧
        ["x", "A_show(3)"] = ["x"] ++ [printerA.showExpr]) := by
  have h := c10_deterministic_and_independent printerA printerA
    (fun _ => Except.ok valA) (fun _ => Except.ok (⟨⟨"other"⟩, 99⟩ : GdbValue))
    [] ["x"] rfl rfl
  exact ⟨h.1, h.2 "3" "3" printerA printerA ["A_show(3)"] ["x", "A_show(3)"] rfl rfl⟩
